import Mathlib

/-!
Verification of the Learning Buddy progress-persistence layer, the
generative-AI service fallbacks, the test-environment localStorage mock,
and the logging service's in-memory log buffer.

The persistence services (`localStorageService.js`, `enhancedDatabaseService.js`)
are not present in the repository sources; only their test suites import them.
Those operations are therefore modelled from the specification (each such
definition carries a doc comment starting "Modelled from the spec:").
The Gemini service (`src/services/geminiService.js`), the localStorage test
polyfill and the logging service are embedded from their source.
-/

/-- A JSON document value, as produced by `JSON.parse` and consumed by
`JSON.stringify`. `Json.null` is the Lean rendering of the JavaScript `null`
value; object fields are an association list read through `lookupKey`. -/
inductive Json where
  | null : Json
  | bool (b : Bool) : Json
  | num (n : Int) : Json
  | str (s : String) : Json
  | arr (elems : List Json) : Json
  | obj (fields : List (String × Json)) : Json

/-- Association-list lookup keyed by strings: the value bound to `k`, or
`none` when the key is absent.  All store observations go through this
function; the most recent binding wins, which models assignment to a
JavaScript object key. -/
def lookupKey {α : Type} : List (String × α) → String → Option α
  | [], _ => none
  | (k', v) :: rest, k => if k' = k then some v else lookupKey rest k

/-- Bind key `k` to `v`.  With `lookupKey` returning the most recent binding,
prepending models the destructive update `store[k] = v`. -/
def setKey {α : Type} (store : List (String × α)) (k : String) (v : α) :
    List (String × α) :=
  (k, v) :: store

theorem lookupKey_setKey_self {α : Type} (s : List (String × α)) (k : String)
    (v : α) : lookupKey (setKey s k v) k = some v := by
  simp [lookupKey, setKey]

theorem lookupKey_setKey_ne {α : Type} (s : List (String × α)) (k k₂ : String)
    (v : α) (h : k ≠ k₂) : lookupKey (setKey s k v) k₂ = lookupKey s k₂ := by
  simp [lookupKey, setKey, h]

/-- The browser-local key-value store region used by the application:
keys are user-id-derived strings, values are JSON-serialized `UserProgress`
documents.  A serialized value is identified with its parsed JSON document
(`JSON.parse (JSON.stringify d)` is deep-equal to `d` for JSON values). -/
abbrev LocalStore := List (String × Json)

/-- The cloud document database collection: one document per user id. -/
abbrev RemoteStore := List (String × Json)

/-- Modelled from the spec: `localStorageService.js` is absent from the
sources (only its tests import it).  The local store is "keyed by user
identifier" with "user-id-derived strings" as keys; we derive the key by
prefixing a fixed application tag to the user id. -/
def storageKey (userId : String) : String :=
  "learning_buddy_progress_" ++ userId

theorem storageKey_inj {u v : String} (h : storageKey u = storageKey v) :
    u = v := by
  have hd := congrArg String.data h
  simp only [storageKey, String.data_append] at hd
  exact String.ext (List.append_cancel_left hd)

/-- Modelled from the spec: `saveUserProgressLocal(userId, data)` JSON-serializes
the document and writes it under the derived key.  A `localStorage.setItem`
exception (quota exceeded) is caught internally and leaves the store
unchanged; the `setThrows` flag models the primitive throwing.  Writing
`null`/`undefined` (`data = some Json.null` / `data = none`) is treated as
"no data": the stored value reads back as null. -/
def saveUserProgressLocal (setThrows : Bool) (store : LocalStore)
    (userId : String) (data : Option Json) : LocalStore :=
  if setThrows then store
  else
    match data with
    | none => setKey store (storageKey userId) Json.null
    | some d => setKey store (storageKey userId) d

/-- Modelled from the spec: `getUserProgressLocal(userId)` parses and returns
the stored document, or null when no record exists for that id.  A
`localStorage.getItem` exception (access denied) is caught internally and
null is returned; the `getThrows` flag models the primitive throwing. -/
def getUserProgressLocal (getThrows : Bool) (store : LocalStore)
    (userId : String) : Json :=
  if getThrows then Json.null
  else
    match lookupKey store (storageKey userId) with
    | none => Json.null
    | some d => d

/-- Modelled from the spec: `clearAllLocalData()` "wipes every locally cached
user record". -/
def clearAllLocalData (_store : LocalStore) : LocalStore := []

/-- Outcomes of the fallible storage primitives: whether each remote or
local operation raises when invoked.  The service operations are total
functions of these flags, which renders "every operation catches all
exceptions internally; no error is ever surfaced to the caller". -/
structure FailureModel where
  remoteThrows : Bool
  localSetThrows : Bool
  localGetThrows : Bool

/-- Normal operation: no storage primitive throws. -/
def noFailures : FailureModel := ⟨false, false, false⟩

/-- The two persistence tiers: `remote = none` models the remote-unavailable
configuration (null client); `remote = some r` the remote-backed one. -/
structure DbState where
  remote : Option RemoteStore
  localStore : LocalStore

/-- Modelled from the spec: `saveUserProgress(userId, fullRecord)` is a
whole-document overwrite that always returns true.  It attempts the remote
write when the remote store is available, mirroring the write to the local
store as cache on success, and falls back to a purely local write on remote
unavailability or on any exception. -/
def saveUserProgress (fm : FailureModel) (st : DbState) (userId : String)
    (doc : Option Json) : Bool × DbState :=
  match st.remote with
  | none =>
      (true, { st with
        localStore := saveUserProgressLocal fm.localSetThrows st.localStore userId doc })
  | some r =>
      if fm.remoteThrows then
        (true, { st with
          localStore := saveUserProgressLocal fm.localSetThrows st.localStore userId doc })
      else
        (true, { remote := some (setKey r userId (doc.getD Json.null)),
                 localStore := saveUserProgressLocal fm.localSetThrows st.localStore userId doc })

/-- Modelled from the spec: `createUserProfile(userId, profileData)` wraps the
profile data in a `UserProgress` document and writes it with the same
remote-then-local fallback; it always returns true, failures are swallowed. -/
def createUserProfile (fm : FailureModel) (st : DbState) (userId : String)
    (profileData : Json) : Bool × DbState :=
  saveUserProgress fm st userId (some (Json.obj [("profile", profileData)]))

/-- Modelled from the spec: `getUserProgress(userId)` reads the remote
document when the remote store is available (null when no record exists),
and degrades to the local store on remote unavailability or failure; a local
read failure in turn yields null.  No exception reaches the caller. -/
def getUserProgress (fm : FailureModel) (st : DbState) (userId : String) :
    Json :=
  match st.remote with
  | none => getUserProgressLocal fm.localGetThrows st.localStore userId
  | some r =>
      if fm.remoteThrows then
        getUserProgressLocal fm.localGetThrows st.localStore userId
      else (lookupKey r userId).getD Json.null

/-- No remote record exists for this user id: either the remote store is
unavailable, or its collection has no document under the id. -/
def noRemoteRecord (st : DbState) (userId : String) : Prop :=
  match st.remote with
  | none => True
  | some r => lookupKey r userId = none

/-- A quiz subject as consumed by `generateEvaluationQuiz`: optional `name`
and `id` properties (`none` renders an absent/undefined property). -/
structure Subject where
  name : Option String
  id : Option String

/-- A topic object: optional `name` property. -/
structure Topic where
  name : Option String

/-- The `topics` argument: a JavaScript object mapping subject ids to arrays
of topic objects. -/
abbrev Topics := List (String × List Topic)

/-- JavaScript truthiness fallback `x || d` applied to an optional string:
an absent value and the empty string are falsy and yield the default. -/
def orDefault (x : Option String) (d : String) : String :=
  match x with
  | some s => if s = "" then d else s
  | none => d

/-- `subjects[0]?.name || 'Mathematics'` from the fallback quiz of
`generateEvaluationQuiz` (src/services/geminiService.js:57). -/
def fallbackSubjectName (subjects : List Subject) : String :=
  orDefault (subjects.head?.bind Subject.name) "Mathematics"

/-- `topics[subjects[0]?.id]?.[0]?.name || 'Basic Arithmetic'`
(src/services/geminiService.js:58).  An undefined `subjects[0]?.id` is
coerced by the property access to the string key "undefined". -/
def fallbackTopicName (subjects : List Subject) (topics : Topics) : String :=
  let key :=
    match subjects.head? with
    | none => "undefined"
    | some s => s.id.getD "undefined"
  orDefault ((lookupKey topics key).bind fun ts => ts.head?.bind Topic.name)
    "Basic Arithmetic"

/-- The single fallback question substituted by `generateEvaluationQuiz` when
the API request or the JSON parse fails (src/services/geminiService.js:52-62). -/
def fallbackQuestionFields (subjects : List Subject) (topics : Topics) :
    List (String × Json) :=
  [("question", Json.str "What is 2 + 2?"),
   ("questionType", Json.str "MCQ"),
   ("options", Json.arr [Json.str "3", Json.str "4", Json.str "5", Json.str "6"]),
   ("subjectName", Json.str (fallbackSubjectName subjects)),
   ("topicName", Json.str (fallbackTopicName subjects topics)),
   ("difficulty", Json.str "Easy"),
   ("correctAnswer", Json.str "4")]

/-- The fallback quiz: a one-element array holding the basic question. -/
def fallbackQuiz (subjects : List Subject) (topics : Topics) : Json :=
  Json.arr [Json.obj (fallbackQuestionFields subjects topics)]

/-- The number of questions the quiz prompt asks the model for: "Please
generate 5 questions that: ..." (src/services/geminiService.js:19). -/
def promptRequestedQuestionCount : Nat := 5

/-- The hardcoded fallback evaluation of `evaluateQuizAnswers`
(src/services/geminiService.js:113-126). -/
def fallbackEvaluation : Json :=
  Json.obj
    [("overallScore", Json.num 75),
     ("subjectBreakdown", Json.obj
        [("Mathematics", Json.obj
            [("score", Json.num 75),
             ("strengths", Json.arr [Json.str "Basic concepts"]),
             ("weaknesses", Json.arr [Json.str "Advanced topics"])])]),
     ("strengths", Json.arr [Json.str "Basic understanding"]),
     ("weaknesses", Json.arr [Json.str "Advanced concepts"]),
     ("recommendations", Json.arr
        [Json.str "Practice more", Json.str "Review fundamentals"]),
     ("difficultyLevel", Json.str "Beginner")]

/-- The hardcoded fallback study plan of `generateStudyPlan`
(src/services/geminiService.js:175-185). -/
def fallbackStudyPlan : Json :=
  Json.obj
    [("weeklySchedule", Json.obj
        [("Week 1", Json.obj
            [("Monday", Json.arr
                [Json.str "Mathematics: Algebra - Practice linear equations"]),
             ("Tuesday", Json.arr
                [Json.str "Mathematics: Geometry - Review basic shapes"])])]),
     ("milestones", Json.arr
        [Json.str "Complete basic concepts", Json.str "Practice problem-solving"]),
     ("resources", Json.arr
        [Json.str "Textbook", Json.str "Online exercises"]),
     ("goals", Json.arr
        [Json.str "Improve understanding", Json.str "Build confidence"])]

/-- Outcome of one round trip to the generative-AI endpoint: the request may
be rejected (network/API error), the response text may fail `JSON.parse`, or
parsing may succeed with some JSON value. -/
inductive GeminiOutcome where
  | requestFailed : GeminiOutcome
  | badJson : GeminiOutcome
  | parsed (value : Json) : GeminiOutcome

/-- `generateEvaluationQuiz` (src/services/geminiService.js:7-64): the whole
body is a try/catch; any request or parse failure lands in the catch branch,
which returns the fallback quiz. -/
def generateEvaluationQuiz (outcome : GeminiOutcome)
    (subjects : List Subject) (topics : Topics) : Json :=
  match outcome with
  | .parsed v => v
  | .requestFailed => fallbackQuiz subjects topics
  | .badJson => fallbackQuiz subjects topics

/-- `evaluateQuizAnswers` (src/services/geminiService.js:66-128): same
try/catch shape with a fully static fallback evaluation. -/
def evaluateQuizAnswers (outcome : GeminiOutcome) (_quiz _answers : Json) :
    Json :=
  match outcome with
  | .parsed v => v
  | .requestFailed => fallbackEvaluation
  | .badJson => fallbackEvaluation

/-- `generateStudyPlan` (src/services/geminiService.js:130-187): same
try/catch shape with a fully static fallback plan. -/
def generateStudyPlan (outcome : GeminiOutcome) (_evaluation : Json)
    (_subjects : List Subject) (_topics : Topics) : Json :=
  match outcome with
  | .parsed v => v
  | .requestFailed => fallbackStudyPlan
  | .badJson => fallbackStudyPlan

/-- The backing object of the test-environment `LocalStorageMock`
(tests setup, `this.store`): string keys to string values. -/
abbrev MockStore := List (String × String)

/-- `LocalStorageMock.getItem(key)` returns `this.store[key] || null`: an
absent key gives null, and so does a stored empty string, because the empty
string is falsy. -/
def LocalStorageMock.getItem (m : MockStore) (key : String) : Option String :=
  match lookupKey m key with
  | some v => if v = "" then none else some v
  | none => none

/-- `LocalStorageMock.setItem(key, value)` stores `String(value)`; the
argument here is already the stringified value. -/
def LocalStorageMock.setItem (m : MockStore) (key value : String) :
    MockStore :=
  setKey m key value

/-- One structured log entry as built by `LoggingService.log`
(src/services/loggingService.js:66-89). -/
structure LogEntry where
  timestamp : String
  level : String
  category : String
  message : String
  sessionId : String
  requestId : String

/-- `LoggingService.flushLogs` (src/services/loggingService.js:290-295):
keep only the last 1000 logs in memory, via `this.logs.slice(-1000)` when
the buffer exceeds 1000 entries. -/
def flushLogs (logs : List LogEntry) : List LogEntry :=
  if logs.length > 1000 then logs.drop (logs.length - 1000) else logs

/-- C1: for every user id and input document, no storage-layer exception
raised during a write or read propagates to the caller: `createUserProfile`
returns true for every outcome of the storage primitives, including ones
where the underlying store throws during the write, and `getUserProgress`
returns null when the read actually performed on the underlying store
throws (remote unavailable or failing, local read throwing). -/
theorem storage_exception_never_propagates (fm : FailureModel) (st : DbState)
    (userId : String) (profileData : Json) :
    (createUserProfile fm st userId profileData).1 = true ∧
    ((st.remote = none ∨ fm.remoteThrows = true) → fm.localGetThrows = true →
      getUserProgress fm st userId = Json.null) := by
  constructor
  · unfold createUserProfile saveUserProgress
    cases st.remote with
    | none => rfl
    | some r => by_cases h : fm.remoteThrows <;> simp [h]
  · intro hpath hget
    unfold getUserProgress
    rcases hpath with h | h
    · rw [h]
      simp [getUserProgressLocal, hget]
    · cases st.remote with
      | none => simp [getUserProgressLocal, hget]
      | some r => simp [h, getUserProgressLocal, hget]

theorem storage_exception_never_propagates_witness :
    (createUserProfile ⟨true, true, true⟩ ⟨none, []⟩ "u1"
      (Json.obj [("userName", Json.str "A")])).1 = true ∧
    getUserProgress ⟨true, true, true⟩ ⟨none, []⟩ "u1" = Json.null := by
  have h := storage_exception_never_propagates ⟨true, true, true⟩ ⟨none, []⟩
    "u1" (Json.obj [("userName", Json.str "A")])
  exact ⟨h.1, h.2 (Or.inl rfl) rfl⟩

/-- C2: for every user id and every JSON document, `saveUserProgress` followed
by `getUserProgress` for the same id, with no intervening write, returns a
value deep-equal to the saved document, in both the remote-backed and the
local-only configuration under normal (non-throwing) storage. -/
theorem save_get_roundtrip (st : DbState) (userId : String) (doc : Json) :
    getUserProgress noFailures
      (saveUserProgress noFailures st userId (some doc)).2 userId = doc := by
  unfold getUserProgress saveUserProgress noFailures
  cases st.remote with
  | none =>
      simp [getUserProgressLocal, saveUserProgressLocal, lookupKey_setKey_self]
  | some r =>
      simp [getUserProgressLocal, saveUserProgressLocal, lookupKey_setKey_self]

/-- C3: for every input to the generative-AI service functions, if the API
request fails or the response text fails to parse as JSON, each function
returns its hardcoded fallback object; the functions are total, so no
exception propagates to the calling UI code. -/
theorem gemini_failure_returns_fallback (outcome : GeminiOutcome)
    (subjects : List Subject) (topics : Topics)
    (quiz answers evaluation : Json)
    (h : outcome = GeminiOutcome.requestFailed ∨
         outcome = GeminiOutcome.badJson) :
    generateEvaluationQuiz outcome subjects topics =
      fallbackQuiz subjects topics ∧
    evaluateQuizAnswers outcome quiz answers = fallbackEvaluation ∧
    generateStudyPlan outcome evaluation subjects topics =
      fallbackStudyPlan := by
  rcases h with h | h <;> subst h <;> exact ⟨rfl, rfl, rfl⟩

theorem gemini_failure_returns_fallback_witness :
    generateEvaluationQuiz GeminiOutcome.requestFailed [] [] =
      fallbackQuiz [] [] ∧
    evaluateQuizAnswers GeminiOutcome.requestFailed Json.null Json.null =
      fallbackEvaluation ∧
    generateStudyPlan GeminiOutcome.requestFailed Json.null [] [] =
      fallbackStudyPlan :=
  gemini_failure_returns_fallback GeminiOutcome.requestFailed [] []
    Json.null Json.null Json.null (Or.inl rfl)

/-- C4: for every user id, `getUserProgress` returns null as long as no write
has occurred for that id — no remote document and no local record — in both
the remote-backed and the local-only configuration, and for every outcome of
the storage primitives. -/
theorem get_null_before_first_write (fm : FailureModel) (st : DbState)
    (userId : String) (hr : noRemoteRecord st userId)
    (hl : lookupKey st.localStore (storageKey userId) = none) :
    getUserProgress fm st userId = Json.null := by
  unfold getUserProgress
  unfold noRemoteRecord at hr
  cases hst : st.remote with
  | none =>
      by_cases hg : fm.localGetThrows <;> simp [getUserProgressLocal, hg, hl]
  | some r =>
      rw [hst] at hr
      by_cases ht : fm.remoteThrows
      · by_cases hg : fm.localGetThrows <;>
          simp [ht, getUserProgressLocal, hg, hl]
      · simp [ht, hr]

theorem get_null_before_first_write_witness :
    noRemoteRecord ⟨some [], []⟩ "u1" ∧
    lookupKey ([] : LocalStore) (storageKey "u1") = none ∧
    getUserProgress noFailures ⟨some [], []⟩ "u1" = Json.null := by
  refine ⟨rfl, rfl, ?_⟩
  exact get_null_before_first_write noFailures ⟨some [], []⟩ "u1" rfl rfl

/-- C5: after `clearAllLocalData()`, the local read returns null for every
user id, in particular for every id that previously had a written record:
the clear operation wipes every locally cached user record. -/
theorem clear_all_then_get_null (getThrows : Bool) (store : LocalStore)
    (userId : String) :
    getUserProgressLocal getThrows (clearAllLocalData store) userId =
      Json.null := by
  by_cases h : getThrows <;>
    simp [getUserProgressLocal, clearAllLocalData, lookupKey, h]

/-- C6: for every user id and state, writing null or undefined as the
document is treated as "no data": a subsequent `getUserProgress` for that id
returns null, and no error is raised (the operations are total). -/
theorem save_null_or_undefined_reads_null (st : DbState) (userId : String) :
    getUserProgress noFailures
      (saveUserProgress noFailures st userId none).2 userId = Json.null ∧
    getUserProgress noFailures
      (saveUserProgress noFailures st userId (some Json.null)).2 userId =
      Json.null := by
  constructor <;>
  · unfold getUserProgress saveUserProgress noFailures
    cases st.remote with
    | none =>
        simp [getUserProgressLocal, saveUserProgressLocal, lookupKey_setKey_self]
    | some r =>
        simp [getUserProgressLocal, saveUserProgressLocal, lookupKey_setKey_self]

/-- C7: writes to distinct user ids are independent: after saving document A
under `u1` and document B under `u2`, reading `u1` returns A and reading `u2`
returns B; a write to one id leaves every other id's stored record unchanged;
and a subsequent clear wipes both ids. -/
theorem distinct_ids_independent (store : LocalStore) (u1 u2 v : String)
    (A B : Json) (doc : Option Json) (h : u1 ≠ u2) (hv : v ≠ u1) :
    getUserProgressLocal false
      (saveUserProgressLocal false
        (saveUserProgressLocal false store u1 (some A)) u2 (some B)) u1 = A ∧
    getUserProgressLocal false
      (saveUserProgressLocal false
        (saveUserProgressLocal false store u1 (some A)) u2 (some B)) u2 = B ∧
    lookupKey (saveUserProgressLocal false store v doc) (storageKey u1) =
      lookupKey store (storageKey u1) ∧
    getUserProgressLocal false
      (clearAllLocalData
        (saveUserProgressLocal false
          (saveUserProgressLocal false store u1 (some A)) u2 (some B))) u1 =
      Json.null ∧
    getUserProgressLocal false
      (clearAllLocalData
        (saveUserProgressLocal false
          (saveUserProgressLocal false store u1 (some A)) u2 (some B))) u2 =
      Json.null := by
  have hk : storageKey u2 ≠ storageKey u1 := fun heq => h (storageKey_inj heq).symm
  have hkv : storageKey v ≠ storageKey u1 := fun heq => hv (storageKey_inj heq)
  refine ⟨?_, ?_, ?_, ?_, ?_⟩
  · simp [getUserProgressLocal, saveUserProgressLocal,
      lookupKey_setKey_ne _ _ _ _ hk, lookupKey_setKey_self]
  · simp [getUserProgressLocal, saveUserProgressLocal, lookupKey_setKey_self]
  · cases doc <;>
      simp [saveUserProgressLocal, lookupKey_setKey_ne _ _ _ _ hkv]
  · simp [getUserProgressLocal, clearAllLocalData, lookupKey]
  · simp [getUserProgressLocal, clearAllLocalData, lookupKey]

theorem distinct_ids_independent_witness :
    getUserProgressLocal false
      (saveUserProgressLocal false
        (saveUserProgressLocal false [] "u1"
          (some (Json.obj [("userName", Json.str "A")]))) "u2"
        (some (Json.obj [("userName", Json.str "B")]))) "u1" =
      Json.obj [("userName", Json.str "A")] ∧
    getUserProgressLocal false
      (saveUserProgressLocal false
        (saveUserProgressLocal false [] "u1"
          (some (Json.obj [("userName", Json.str "A")]))) "u2"
        (some (Json.obj [("userName", Json.str "B")]))) "u2" =
      Json.obj [("userName", Json.str "B")] ∧
    lookupKey (saveUserProgressLocal false [] "u2"
        (some (Json.obj [("userName", Json.str "B")]))) (storageKey "u1") =
      lookupKey ([] : LocalStore) (storageKey "u1") ∧
    getUserProgressLocal false
      (clearAllLocalData
        (saveUserProgressLocal false
          (saveUserProgressLocal false [] "u1"
            (some (Json.obj [("userName", Json.str "A")]))) "u2"
          (some (Json.obj [("userName", Json.str "B")])))) "u1" = Json.null ∧
    getUserProgressLocal false
      (clearAllLocalData
        (saveUserProgressLocal false
          (saveUserProgressLocal false [] "u1"
            (some (Json.obj [("userName", Json.str "A")]))) "u2"
          (some (Json.obj [("userName", Json.str "B")])))) "u2" = Json.null :=
  distinct_ids_independent [] "u1" "u2" "u2"
    (Json.obj [("userName", Json.str "A")])
    (Json.obj [("userName", Json.str "B")])
    (some (Json.obj [("userName", Json.str "B")]))
    (by decide) (by decide)

/-- C8: whenever the model request or the JSON parse throws and `subjects`
is a (possibly empty) array, `generateEvaluationQuiz` returns an array
containing exactly one multiple-choice question — questionType "MCQ", four
options, correctAnswer "4" — although the prompt requests five questions. -/
theorem quiz_fallback_single_mcq (outcome : GeminiOutcome)
    (subjects : List Subject) (topics : Topics)
    (h : outcome = GeminiOutcome.requestFailed ∨
         outcome = GeminiOutcome.badJson) :
    generateEvaluationQuiz outcome subjects topics =
      Json.arr [Json.obj (fallbackQuestionFields subjects topics)] ∧
    lookupKey (fallbackQuestionFields subjects topics) "questionType" =
      some (Json.str "MCQ") ∧
    lookupKey (fallbackQuestionFields subjects topics) "options" =
      some (Json.arr
        [Json.str "3", Json.str "4", Json.str "5", Json.str "6"]) ∧
    [Json.str "3", Json.str "4", Json.str "5", Json.str "6"].length = 4 ∧
    lookupKey (fallbackQuestionFields subjects topics) "correctAnswer" =
      some (Json.str "4") ∧
    promptRequestedQuestionCount = 5 := by
  refine ⟨?_, rfl, rfl, rfl, rfl, rfl⟩
  rcases h with h | h <;> subst h <;> rfl

theorem quiz_fallback_single_mcq_witness :
    generateEvaluationQuiz GeminiOutcome.badJson [] [] =
      Json.arr [Json.obj (fallbackQuestionFields [] [])] ∧
    lookupKey (fallbackQuestionFields [] []) "questionType" =
      some (Json.str "MCQ") ∧
    lookupKey (fallbackQuestionFields [] []) "options" =
      some (Json.arr
        [Json.str "3", Json.str "4", Json.str "5", Json.str "6"]) ∧
    [Json.str "3", Json.str "4", Json.str "5", Json.str "6"].length = 4 ∧
    lookupKey (fallbackQuestionFields [] []) "correctAnswer" =
      some (Json.str "4") ∧
    promptRequestedQuestionCount = 5 :=
  quiz_fallback_single_mcq GeminiOutcome.badJson [] [] (Or.inr rfl)

/-- C9: for the test-environment localStorage polyfill, after
`setItem(k, v)`, `getItem(k)` returns the stringified value when it is
non-empty but null when it is the empty string, because `getItem` evaluates
`store[key] || null`; the setItem/getItem round-trip fails for "". -/
theorem mock_getItem_after_setItem (m : MockStore) (k v : String) :
    LocalStorageMock.getItem (LocalStorageMock.setItem m k v) k =
      (if v = "" then none else some v) ∧
    LocalStorageMock.getItem (LocalStorageMock.setItem m k "") k = none := by
  constructor <;>
    simp [LocalStorageMock.getItem, LocalStorageMock.setItem,
      lookupKey_setKey_self]

/-- C10: the in-memory log buffer is bounded: `flushLogs` leaves at most
1000 entries in `this.logs`, and the entries kept are exactly the most
recently appended ones — the final suffix of the buffer. -/
theorem flushLogs_bounded_suffix (logs : List LogEntry) :
    (flushLogs logs).length ≤ 1000 ∧
    flushLogs logs = logs.drop (logs.length - 1000) ∧
    flushLogs logs <:+ logs := by
  unfold flushLogs
  by_cases h : logs.length > 1000
  · rw [if_pos h]
    refine ⟨?_, rfl, List.drop_suffix _ _⟩
    rw [List.length_drop]
    omega
  · rw [if_neg h]
    have hlen : logs.length - 1000 = 0 := by omega
    refine ⟨by omega, ?_, List.suffix_refl logs⟩
    rw [hlen, List.drop_zero]
